import Mathlib

/-!
Shallow embedding of `webhook_fila.py` (webhook-bling): data model, record
processor, API client retry loop, token manager and worker loop, together
with theorems settling the specification claims.

Modelling conventions: Python dicts with optional keys become structures
with `Option` fields, and the `.get(key, default)` defaults are applied at
the use site exactly where the source applies them. Python floats
(quantities, prices) are modelled as `Int`; the claims under study do not
depend on rounding. SQL tables become either assoc-style functions from
the key to `Option` row, or `List` of rows where insertion order matters.
-/

namespace WebhookBling

/-- One element of the payload's `itens` list, with optional keys as in the
JSON document. -/
structure ItemPayload where
  codigo : Option String
  descricao : Option String
  quantidade : Option Int
  valor : Option Int
deriving DecidableEq, Repr

/-- One entry of the `itens_agrupados` dict built in `processar_itens_pedido`
(line 239-256): keyed by `codigo`, insertion-ordered. -/
structure ItemAgg where
  codigo : String
  descricao : String
  quantidade : Int
  valor : Int
deriving DecidableEq, Repr

/-- One row of `fat_itens_venda`. -/
structure ItemRow where
  pedido_data_id : Int
  codigo : String
  descricao : String
  quantidade : Int
  valor_unitario : Int
  data_venda : String
deriving DecidableEq, Repr

/-- Loop body of the aggregation in `processar_itens_pedido` (lines 241-256):
if the code is already a key of the dict, only the quantity is added;
otherwise a fresh entry is appended with the first-seen description and
unit price. -/
def aggInsert (acc : List ItemAgg) (item : ItemPayload) : List ItemAgg :=
  if acc.any (fun e => e.codigo == item.codigo.getD "") then
    acc.map (fun e =>
      if e.codigo == item.codigo.getD "" then
        { e with quantidade := e.quantidade + item.quantidade.getD 0 } else e)
  else
    acc ++ [⟨item.codigo.getD "", item.descricao.getD "",
             item.quantidade.getD 0, item.valor.getD 0⟩]

/-- The `itens_agrupados` dict after the whole loop of
`processar_itens_pedido` (lines 239-256). -/
def agruparItens (itens : List ItemPayload) : List ItemAgg :=
  itens.foldl aggInsert []

/-- Row built by the insert loop of `processar_itens_pedido` (lines 259-273). -/
def mkItemRow (pedido_id : Int) (data_venda : String) (e : ItemAgg) : ItemRow :=
  ⟨pedido_id, e.codigo, e.descricao, e.quantidade, e.valor, data_venda⟩

/-- Body of `processar_itens_pedido` (lines 227-278) with fault injection:
`fault = some n` models an exception raised after `n` successful row
inserts (the delete has already run; the exception is caught and logged by
the function's own `except` block, so the table is left in this partial
state). `fault = none` is the fault-free run. -/
def processar_itens_pedido_fault (fault : Option Nat) (tbl : List ItemRow)
    (pedido_id : Int) (data_venda : String) (itens : List ItemPayload) : List ItemRow :=
  let afterDelete := tbl.filter (fun r => !(r.pedido_data_id == pedido_id))
  if itens.isEmpty then afterDelete
  else
    let rows := (agruparItens itens).map (mkItemRow pedido_id data_venda)
    match fault with
    | none => afterDelete ++ rows
    | some n => afterDelete ++ rows.take n

/-- Fault-free `processar_itens_pedido` (lines 227-278). -/
def processar_itens_pedido (tbl : List ItemRow) (pedido_id : Int)
    (data_venda : String) (itens : List ItemPayload) : List ItemRow :=
  processar_itens_pedido_fault none tbl pedido_id data_venda itens

/-- Sum of the quantities of the incoming lines carrying product code `c`
(specification vocabulary for stating the aggregation property). -/
def sumQty (c : String) (itens : List ItemPayload) : Int :=
  ((itens.filter (fun it => it.codigo.getD "" == c)).map (fun it => it.quantidade.getD 0)).sum

/-- First incoming line carrying product code `c`, if any. -/
def firstWith (c : String) (itens : List ItemPayload) : Option ItemPayload :=
  itens.find? (fun it => it.codigo.getD "" == c)

theorem addQty_codigo (q : Int) (cod c : String) (e : ItemAgg) :
    ((if (e.codigo == cod) = true then
        { e with quantidade := e.quantidade + q } else e).codigo == c)
      = (e.codigo == c) := by
  split <;> rfl

theorem aggInsert_filter_ne (acc : List ItemAgg) (it : ItemPayload) (c : String)
    (h : (it.codigo.getD "" == c) = false) :
    (aggInsert acc it).filter (fun e => e.codigo == c)
      = acc.filter (fun e => e.codigo == c) := by
  unfold aggInsert
  by_cases hany : (acc.any fun e => e.codigo == it.codigo.getD "") = true
  · rw [if_pos hany, List.filter_map]
    simp only [Function.comp_def, addQty_codigo]
    apply (List.map_congr_left ?_).trans (List.map_id _)
    intro e he
    have hec : (e.codigo == c) = true := (List.mem_filter.mp he).2
    have hene : (e.codigo == it.codigo.getD "") = false := by
      have h1 : e.codigo = c := beq_iff_eq.mp hec
      subst h1
      rw [beq_eq_false_iff_ne] at h ⊢
      exact fun hcon => h hcon.symm
    rw [if_neg (by simp [hene])]
    rfl
  · rw [if_neg hany, List.filter_append]
    have hsing : ([(⟨it.codigo.getD "", it.descricao.getD "",
        it.quantidade.getD 0, it.valor.getD 0⟩ : ItemAgg)].filter
          (fun e => e.codigo == c)) = [] := by
      simp [List.filter, h]
    rw [hsing, List.append_nil]

theorem aggInsert_filter_new (acc : List ItemAgg) (it : ItemPayload) (c : String)
    (h : (it.codigo.getD "" == c) = true)
    (hacc : (acc.any fun e => e.codigo == c) = false) :
    (aggInsert acc it).filter (fun e => e.codigo == c)
      = [⟨c, it.descricao.getD "", it.quantidade.getD 0, it.valor.getD 0⟩] := by
  have hc : it.codigo.getD "" = c := beq_iff_eq.mp h
  unfold aggInsert
  rw [hc, if_neg (by simp [hacc])]
  rw [List.filter_append]
  have h1 : acc.filter (fun e => e.codigo == c) = [] := by
    rw [List.filter_eq_nil_iff]
    intro e he hcon
    rw [List.any_eq_false] at hacc
    exact hacc e he hcon
  rw [h1, List.nil_append]
  simp [List.filter]

theorem aggInsert_filter_dup (acc : List ItemAgg) (it : ItemPayload) (c : String)
    (h : (it.codigo.getD "" == c) = true)
    (hacc : (acc.any fun e => e.codigo == c) = true) :
    (aggInsert acc it).filter (fun e => e.codigo == c)
      = (acc.filter (fun e => e.codigo == c)).map
          (fun e => { e with quantidade := e.quantidade + it.quantidade.getD 0 }) := by
  have hc : it.codigo.getD "" = c := beq_iff_eq.mp h
  unfold aggInsert
  rw [hc, if_pos hacc, List.filter_map]
  simp only [Function.comp_def, addQty_codigo]
  apply List.map_congr_left
  intro e he
  have hec : (e.codigo == c) = true := (List.mem_filter.mp he).2
  rw [if_pos hec]

theorem aggInsert_any (acc : List ItemAgg) (it : ItemPayload) (c : String) :
    (aggInsert acc it).any (fun e => e.codigo == c)
      = ((acc.any fun e => e.codigo == c) || (it.codigo.getD "" == c)) := by
  unfold aggInsert
  by_cases hany : (acc.any fun e => e.codigo == it.codigo.getD "") = true
  · rw [if_pos hany, List.any_map]
    simp only [Function.comp_def, addQty_codigo]
    cases h : (it.codigo.getD "" == c) with
    | true =>
      have hc : it.codigo.getD "" = c := beq_iff_eq.mp h
      subst hc
      simp [hany]
    | false => rw [Bool.or_false]
  · rw [if_neg hany, List.any_append]
    simp

theorem foldl_aggInsert_filter (itens : List ItemPayload) (acc : List ItemAgg) (c : String) :
    ((itens.foldl aggInsert acc).filter (fun e => e.codigo == c))
      = ((acc.filter (fun e => e.codigo == c)).map
          (fun e => { e with quantidade := e.quantidade + sumQty c itens }))
        ++ (if (acc.any fun e => e.codigo == c) = true then []
            else
              match firstWith c itens with
              | none => []
              | some it => [⟨c, it.descricao.getD "", sumQty c itens, it.valor.getD 0⟩]) := by
  induction itens generalizing acc with
  | nil =>
    have hid : (fun e : ItemAgg => { e with quantidade := e.quantidade + sumQty c [] }) = id := by
      funext e
      cases e
      simp [sumQty]
    rw [List.foldl_nil, hid, List.map_id]
    have hmt : firstWith c [] = none := rfl
    rw [hmt]
    cases hacc : (acc.any fun e => e.codigo == c) <;> simp
  | cons it rest ih =>
    rw [List.foldl_cons, ih (aggInsert acc it)]
    cases h : (it.codigo.getD "" == c) with
    | false =>
      have hs : sumQty c (it :: rest) = sumQty c rest := by
        simp [sumQty, List.filter_cons, h]
      have hf : firstWith c (it :: rest) = firstWith c rest := by
        simp [firstWith, List.find?_cons, h]
      rw [aggInsert_filter_ne acc it c h, aggInsert_any, h, Bool.or_false, hs, hf]
    | true =>
      have hs : sumQty c (it :: rest) = it.quantidade.getD 0 + sumQty c rest := by
        simp [sumQty, List.filter_cons, h]
      have hf : firstWith c (it :: rest) = some it := by
        simp [firstWith, List.find?_cons, h]
      rw [aggInsert_any, h, Bool.or_true, hs, hf]
      cases hacc : (acc.any fun e => e.codigo == c) with
      | true =>
        rw [aggInsert_filter_dup acc it c h hacc, List.map_map, if_pos rfl, if_pos rfl]
        rw [List.append_nil, List.append_nil]
        apply List.map_congr_left
        intro e _
        simp [Function.comp_def, add_assoc]
      | false =>
        rw [aggInsert_filter_new acc it c h hacc, if_pos rfl]
        have hnil : acc.filter (fun e => e.codigo == c) = [] := by
          rw [List.filter_eq_nil_iff]
          rw [List.any_eq_false] at hacc
          exact hacc
        rw [hnil]
        simp

theorem agruparItens_filter (itens : List ItemPayload) (c : String) :
    (agruparItens itens).filter (fun e => e.codigo == c)
      = match firstWith c itens with
        | none => []
        | some it => [⟨c, it.descricao.getD "", sumQty c itens, it.valor.getD 0⟩] := by
  rw [agruparItens, foldl_aggInsert_filter]
  simp only [List.filter_nil, List.map_nil, List.any_nil, List.nil_append]
  rw [if_neg (by simp)]

theorem processar_rows_filter_pid (tbl : List ItemRow) (pid : Int) (venda : String)
    (itens : List ItemPayload) :
    ((processar_itens_pedido tbl pid venda itens).filter
        (fun r => r.pedido_data_id == pid))
      = (agruparItens itens).map (mkItemRow pid venda) := by
  have hdel : (tbl.filter (fun r => !(r.pedido_data_id == pid))).filter
      (fun r => r.pedido_data_id == pid) = [] := by
    rw [List.filter_filter]
    have : ∀ r : ItemRow, ((r.pedido_data_id == pid) && !(r.pedido_data_id == pid)) = false :=
      fun r => Bool.and_not_self _
    simp only [this]
    exact List.filter_false _
  have hrows : ((agruparItens itens).map (mkItemRow pid venda)).filter
      (fun r => r.pedido_data_id == pid) = (agruparItens itens).map (mkItemRow pid venda) := by
    rw [List.filter_eq_self]
    intro r hr
    obtain ⟨e, _, rfl⟩ := List.mem_map.mp hr
    exact beq_self_eq_true pid
  simp only [processar_itens_pedido, processar_itens_pedido_fault]
  by_cases hemp : itens.isEmpty = true
  · rw [if_pos hemp, List.isEmpty_iff.mp hemp]
    rw [show agruparItens [] = [] from rfl, List.map_nil]
    exact hdel
  · rw [if_neg hemp, List.filter_append, hdel, hrows, List.nil_append]

theorem processar_rows_filter_other (tbl : List ItemRow) (pid : Int) (venda : String)
    (itens : List ItemPayload) :
    ((processar_itens_pedido tbl pid venda itens).filter
        (fun r => !(r.pedido_data_id == pid)))
      = tbl.filter (fun r => !(r.pedido_data_id == pid)) := by
  have hdel : (tbl.filter (fun r => !(r.pedido_data_id == pid))).filter
      (fun r => !(r.pedido_data_id == pid)) = tbl.filter (fun r => !(r.pedido_data_id == pid)) := by
    rw [List.filter_filter]
    have : (fun r : ItemRow => (!(r.pedido_data_id == pid) && !(r.pedido_data_id == pid)))
        = (fun r : ItemRow => !(r.pedido_data_id == pid)) := by
      funext r
      exact Bool.and_self _
    rw [this]
  have hrows : ((agruparItens itens).map (mkItemRow pid venda)).filter
      (fun r => !(r.pedido_data_id == pid)) = [] := by
    rw [List.filter_eq_nil_iff]
    intro r hr
    obtain ⟨e, _, rfl⟩ := List.mem_map.mp hr
    simp [mkItemRow]
  simp only [processar_itens_pedido, processar_itens_pedido_fault]
  by_cases hemp : itens.isEmpty = true
  · rw [if_pos hemp]
    exact hdel
  · rw [if_neg hemp, List.filter_append, hdel, hrows, List.append_nil]

theorem processar_rows_filter_code (tbl : List ItemRow) (pid : Int) (venda : String)
    (itens : List ItemPayload) (c : String) :
    ((processar_itens_pedido tbl pid venda itens).filter
        (fun r => r.pedido_data_id == pid && r.codigo == c))
      = match firstWith c itens with
        | none => []
        | some it => [⟨pid, c, it.descricao.getD "", sumQty c itens, it.valor.getD 0, venda⟩] := by
  have hsplit : ∀ l : List ItemRow,
      l.filter (fun r => r.pedido_data_id == pid && r.codigo == c)
        = (l.filter (fun r => r.pedido_data_id == pid)).filter (fun r => r.codigo == c) := by
    intro l
    rw [List.filter_filter]
    apply List.filter_congr
    intro r _
    exact Bool.and_comm _ _
  rw [hsplit, processar_rows_filter_pid, List.filter_map]
  have hcomp : ((fun r : ItemRow => r.codigo == c) ∘ mkItemRow pid venda)
      = (fun e : ItemAgg => e.codigo == c) := by
    funext e
    rfl
  rw [hcomp, agruparItens_filter]
  cases hfw : firstWith c itens with
  | none => rfl
  | some it => rfl

/-- C6: for every order update with an incoming line list, line-item
replacement first deletes all existing rows for that order id, then
aggregates incoming lines by product code - summing quantities of duplicate
codes, keeping the first-seen description and unit price per code - and
inserts exactly one row per distinct code; rows of other orders are left
alone; the example `[{code:A,qty:2},{code:A,qty:3},{code:B,qty:1}]` yields
rows `{A:5},{B:1}`. -/
theorem claim_C6_line_item_replacement :
    (∀ (tbl : List ItemRow) (pid : Int) (venda : String) (itens : List ItemPayload),
      ((processar_itens_pedido tbl pid venda itens).filter
          (fun r => r.pedido_data_id == pid))
        = (agruparItens itens).map (mkItemRow pid venda)
      ∧ ((processar_itens_pedido tbl pid venda itens).filter
          (fun r => !(r.pedido_data_id == pid)))
        = tbl.filter (fun r => !(r.pedido_data_id == pid))
      ∧ ∀ c : String,
          ((processar_itens_pedido tbl pid venda itens).filter
              (fun r => r.pedido_data_id == pid && r.codigo == c))
            = match firstWith c itens with
              | none => []
              | some it => [⟨pid, c, it.descricao.getD "", sumQty c itens, it.valor.getD 0, venda⟩])
    ∧ processar_itens_pedido
        [⟨7, "OLD", "stale row", 9, 9, "2020-01-01"⟩] 7 "2024-01-01"
        [⟨some "A", some "descA", some 2, some 10⟩,
         ⟨some "A", some "otherA", some 3, some 99⟩,
         ⟨some "B", some "descB", some 1, some 5⟩]
      = [⟨7, "A", "descA", 5, 10, "2024-01-01"⟩,
         ⟨7, "B", "descB", 1, 5, "2024-01-01"⟩] := by
  constructor
  · intro tbl pid venda itens
    exact ⟨processar_rows_filter_pid tbl pid venda itens,
           processar_rows_filter_other tbl pid venda itens,
           fun c => processar_rows_filter_code tbl pid venda itens c⟩
  · decide

/-- Order detail document (the `data` envelope of the order endpoint), with
the optional JSON keys modelled as `Option`. `situacao` and `loja` are
nested objects: `none` is an absent key, `some none` a present but
falsy/no-id object, `some (some v)` an object with an id. An absent
`itens` key and an empty list behave identically downstream (both falsy),
so both are the empty list. `OrderDoc.empty` is the empty document `{}`
returned for a 404. -/
structure OrderDoc where
  situacao : Option (Option Int)
  loja : Option (Option Int)
  numero : Option String
  numeroLoja : Option String
  total : Option Int
  data : Option String
  itens : List ItemPayload
deriving DecidableEq, Repr

def OrderDoc.empty : OrderDoc := ⟨none, none, none, none, none, none, []⟩

/-- Lines 290-292: `situacao_obj = full_data.get('situacao', {})`,
`situacao_id = situacao_obj.get('id') if situacao_obj else 0`, then a
`None` id becomes 0. -/
def situacaoIdOf (d : OrderDoc) : Int :=
  match d.situacao with
  | none => 0
  | some none => 0
  | some (some v) => v

/-- Line 294: `loja_id = full_data.get('loja', {}).get('id') or 0` (the
`or 0` sends a missing/None id to 0 and keeps any number, 0 included). -/
def lojaIdOf (d : OrderDoc) : Int :=
  match d.loja with
  | none => 0
  | some none => 0
  | some (some v) => v

/-- Python truthiness of `x if x else dflt` on an optional string: both a
missing value and the empty string fall back to the default. -/
def pyOrStr (v : Option String) (dflt : String) : String :=
  match v with
  | some s => if s == "" then dflt else s
  | none => dflt

/-- One row of the `pedidos` table. -/
structure PedidoRow where
  conta_bling : String
  loja_id : Int
  numero_pedido : Option String
  numero_loja : Option String
  valor_total : Option Int
  situacao_id : Int
  data_criacao : Option String
  data_atualizacao : String
  ultimo_evento : String
  json_completo : OrderDoc
deriving DecidableEq, Repr

/-- One component of a kit payload: `comp['produto']['id']` and
`comp['quantidade']`. -/
structure Componente where
  produto_id : Int
  quantidade : Int
deriving DecidableEq, Repr

/-- The `estoque` key of a product payload: absent, a scalar, or a nested
object read through `.get('saldoVirtualTotal', 0)`. -/
inductive EstoqueField
  | absent
  | scalar (v : Int)
  | dict (saldoVirtualTotal : Option Int)
deriving DecidableEq, Repr

/-- The `estrutura` key of a product payload, as tested on line 375:
`'estrutura' in full_data and full_data['estrutura'] and 'componentes' in
full_data['estrutura']`. `absent` = no key, `falsy` = key present but
None/empty dict, `semComponentes` = truthy dict without a `componentes`
key, `componentes l` = the `componentes` key holds the list `l` (which may
be empty). -/
inductive EstruturaField
  | absent
  | falsy
  | semComponentes
  | componentes (l : List Componente)
deriving DecidableEq, Repr

/-- Product detail document. `fornecedor_precoCusto`: `none` = no
`fornecedor` key, `some none` = `fornecedor` without `precoCusto`,
`some (some v)` = nested cost price `v`. -/
structure ProductDoc where
  id : Int
  codigo : Option String
  nome : Option String
  tipo : Option String
  formato : Option String
  situacao : Option String
  preco : Option Int
  fornecedor_precoCusto : Option (Option Int)
  estoque : EstoqueField
  estrutura : EstruturaField
deriving DecidableEq, Repr

/-- One row of `dim_produtos`. -/
structure ProdutoRow where
  codigo : String
  nome : String
  tipo : String
  formato : String
  situacao : String
  estoque_atual : Int
  preco_custo : Int
  preco_venda : Int
  json_completo : ProductDoc
  data_atualizacao : String
deriving DecidableEq, Repr

/-- One row of `dim_estrutura`: (parent id, child id, account, quantity). -/
structure EdgeRow where
  id_pai : Int
  id_filho : Int
  conta_bling : String
  quantidade : Int
deriving DecidableEq, Repr

/-- A queued task, as built by the webhook handler (lines 494-500). The
raw notification body is kept opaque. -/
structure Task where
  entity_id : Int
  conta_bling : String
  event_type : String
  payload_date : Option String
  raw_data : String
deriving DecidableEq, Repr

/-- One row of `eventos_bling`. `data_json` stores `json.dumps(task)`,
modelled as the task value itself. -/
structure EventoRow where
  eventId : String
  data_id : Int
  event : String
  conta_bling : String
  data_json : Task
  data_created : String
deriving DecidableEq, Repr

/-- The persistent store: `pedidos` keyed by `pedido_data_id`, `dim_produtos`
keyed by `(id_produto, conta_bling)`, `eventos_bling` keyed by its conflict
target `(data_id, eventId)`; the two replace-style tables keep row lists. -/
structure DB where
  pedidos : Int → Option PedidoRow
  fat_itens_venda : List ItemRow
  produtos : Int → String → Option ProdutoRow
  dim_estrutura : List EdgeRow
  eventos_bling : Int → String → Option EventoRow

/-- Body of `atualizar_dashboard` (lines 281-326). The `order.deleted`
branch is a bare `UPDATE` (a no-op when the row does not exist) touching
only `situacao_id`, `data_atualizacao` and `ultimo_evento`; every other
event runs the `ON CONFLICT` upsert whose `data_criacao` is
`COALESCE(d.data_criacao, EXCLUDED.data_criacao)`, then replaces the
order's line items. `itensFault` is threaded into
`processar_itens_pedido_fault`. -/
def atualizar_dashboard_fault (itensFault : Option Nat) (now : String) (db : DB)
    (pedido_id : Int) (conta_bling : String) (evento : String)
    (full_data : OrderDoc) (event_date : Option String) : DB :=
  let val_atualizacao := pyOrStr event_date now
  if evento == "order.deleted" then
    { db with pedidos := fun k =>
        if k = pedido_id then
          (match db.pedidos pedido_id with
           | none => none
           | some r =>
               some { r with
                      situacao_id := 9999999
                      data_atualizacao := val_atualizacao
                      ultimo_evento := evento })
        else db.pedidos k }
  else
    let val_criacao := full_data.data
    let upserted : PedidoRow :=
      match db.pedidos pedido_id with
      | none =>
          ⟨conta_bling, lojaIdOf full_data, full_data.numero, full_data.numeroLoja,
           full_data.total, situacaoIdOf full_data, val_criacao, val_atualizacao,
           evento, full_data⟩
      | some old =>
          ⟨conta_bling, lojaIdOf full_data, full_data.numero, full_data.numeroLoja,
           full_data.total, situacaoIdOf full_data,
           (match old.data_criacao with
            | some t => some t
            | none => val_criacao),
           val_atualizacao, evento, full_data⟩
    let db1 := { db with pedidos := fun k =>
        if k = pedido_id then some upserted else db.pedidos k }
    let data_venda := pyOrStr val_criacao now
    { db1 with fat_itens_venda :=
        (processar_itens_pedido_fault itensFault db1.fat_itens_venda pedido_id
          data_venda full_data.itens) }

/-- Fault-free `atualizar_dashboard`. -/
def atualizar_dashboard (now : String) (db : DB) (pedido_id : Int)
    (conta_bling : String) (evento : String) (full_data : OrderDoc)
    (event_date : Option String) : DB :=
  atualizar_dashboard_fault none now db pedido_id conta_bling evento full_data event_date

/-- Lines 344-349: stock normalised from a scalar or from the nested
`saldoVirtualTotal` field. -/
def estoqueAtualOf (d : ProductDoc) : Int :=
  match d.estoque with
  | .absent => 0
  | .scalar v => v
  | .dict s => s.getD 0

/-- Lines 340-342: cost price from the nested supplier object, default 0. -/
def precoCustoOf (d : ProductDoc) : Int :=
  match d.fornecedor_precoCusto with
  | some (some v) => v
  | some none => 0
  | none => 0

/-- Line 385: `INSERT ... ON CONFLICT DO NOTHING` on `dim_estrutura`, whose
unique key is (id_pai, id_filho, conta_bling). -/
def edgeInsertIgnore (tbl : List EdgeRow) (e : EdgeRow) : List EdgeRow :=
  if tbl.any (fun r =>
      r.id_pai == e.id_pai && r.id_filho == e.id_filho && r.conta_bling == e.conta_bling) then
    tbl
  else
    tbl ++ [e]

/-- Body of `processar_produto_completo` (lines 328-392): product upsert by
(id_produto, conta_bling), then - only when the `estrutura` test of line
375 passes - delete this (parent, account)'s edges and insert one edge per
component with conflicts ignored. -/
def processar_produto_completo (now : String) (db : DB) (full_data : ProductDoc)
    (nome_conta : String) : DB :=
  let row : ProdutoRow :=
    ⟨full_data.codigo.getD "", full_data.nome.getD "", full_data.tipo.getD "P",
     full_data.formato.getD "S", full_data.situacao.getD "A",
     estoqueAtualOf full_data, precoCustoOf full_data, full_data.preco.getD 0,
     full_data, now⟩
  let db1 := { db with produtos := fun i conta =>
      if i = full_data.id ∧ conta = nome_conta then some row else db.produtos i conta }
  match full_data.estrutura with
  | .componentes l =>
      let deleted := db1.dim_estrutura.filter
        (fun r => !(r.id_pai == full_data.id && r.conta_bling == nome_conta))
      let inserted := l.foldl (fun tbl comp =>
        edgeInsertIgnore tbl ⟨full_data.id, comp.produto_id, nome_conta, comp.quantidade⟩)
        deleted
      { db1 with dim_estrutura := inserted }
  | _ => db1

/-- Event-log write of the worker (lines 436-441): insert keyed by the
conflict target (data_id, eventId); on conflict only the `event` column is
updated (`DO UPDATE SET event = EXCLUDED.event`). -/
def evento_upsert (now : String) (db : DB) (task : Task) : DB :=
  let eid := task.event_type ++ "-" ++ toString task.entity_id
  { db with eventos_bling := fun d e =>
      if d = task.entity_id ∧ e = eid then
        match db.eventos_bling d e with
        | none => some ⟨eid, task.entity_id, task.event_type, task.conta_bling, task, now⟩
        | some old => some { old with event := task.event_type }
      else db.eventos_bling d e }

/-- C5: for every order row, creation time is first-write-wins: once the
order has been inserted with creation time `t0`, no later upsert (whatever
the new payload's creation time is) changes the stored creation time,
while the other order fields are overwritten from the new payload. -/
theorem claim_C5_creation_time_first_write_wins
    (now : String) (db : DB) (pid : Int) (conta : String) (evento : String)
    (d : OrderDoc) (event_date : Option String) (r : PedidoRow) (t0 : String)
    (hrow : db.pedidos pid = some r) (ht0 : r.data_criacao = some t0)
    (hev : (evento == "order.deleted") = false) :
    (atualizar_dashboard now db pid conta evento d event_date).pedidos pid
      = some ⟨conta, lojaIdOf d, d.numero, d.numeroLoja, d.total, situacaoIdOf d,
              some t0, pyOrStr event_date now, evento, d⟩ := by
  simp only [atualizar_dashboard, atualizar_dashboard_fault]
  rw [if_neg (by simp [hev])]
  simp only [hrow, ht0, if_pos rfl]
  rw [if_pos trivial]

/-- Concrete order row and documents used by witnesses. -/
def exRow5 : PedidoRow :=
  ⟨"acc", 1, some "N1", none, some 100, 3, some "2020-01-01", "2020-01-02",
   "order.created", OrderDoc.empty⟩

def exDB5 : DB :=
  ⟨fun k => if k = 5 then some exRow5 else none, [], fun _ _ => none, [],
   fun _ _ => none⟩

def exDoc5 : OrderDoc :=
  ⟨some (some 12), some (some 3), some "N2", some "L2", some 250,
   some "2021-09-09", [⟨some "A", some "da", some 2, some 10⟩]⟩

theorem claim_C5_witness :
    (exDB5.pedidos 5 = some exRow5
      ∧ exRow5.data_criacao = some "2020-01-01"
      ∧ (("order.updated" : String) == "order.deleted") = false)
    ∧ (atualizar_dashboard "NOW" exDB5 5 "acc" "order.updated" exDoc5
        (some "2021-09-10")).pedidos 5
      = some ⟨"acc", lojaIdOf exDoc5, exDoc5.numero, exDoc5.numeroLoja, exDoc5.total,
              situacaoIdOf exDoc5, some "2020-01-01", pyOrStr (some "2021-09-10") "NOW",
              "order.updated", exDoc5⟩ :=
  ⟨⟨rfl, rfl, by decide⟩,
   claim_C5_creation_time_first_write_wins "NOW" exDB5 5 "acc" "order.updated"
     exDoc5 (some "2021-09-10") exRow5 "2020-01-01" rfl rfl (by decide)⟩

/-- Product document whose `estrutura` carries an empty `componentes` list. -/
def exDocC7 : ProductDoc :=
  ⟨50, some "K1", some "Kit", none, none, none, some 10, none,
   EstoqueField.scalar 4, EstruturaField.componentes []⟩

/-- A store holding one existing structure edge for parent 50 / account acc. -/
def exDBC7 : DB :=
  ⟨fun _ => none, [], fun _ _ => none, [⟨50, 60, "acc", 1⟩], fun _ _ => none⟩

/-- C7 counterexample: the claim says a payload with an empty component
list leaves the edges unchanged, but the line-375 test only checks that the
`componentes` key exists, so an empty list still deletes the existing
(parent, account) edges and inserts nothing. -/
theorem claim_C7_counterexample :
    exDocC7.estrutura = EstruturaField.componentes []
    ∧ exDBC7.dim_estrutura = [⟨50, 60, "acc", 1⟩]
    ∧ (processar_produto_completo "NOW" exDBC7 exDocC7 "acc").dim_estrutura = [] := by
  exact ⟨rfl, rfl, rfl⟩

/-- C7 (amended): the structure edges for (parent id, account) are replaced
- existing edges deleted, one edge per component inserted with
duplicate-key conflicts ignored - exactly when the payload's `estrutura`
object is truthy and contains a `componentes` key, even when that list is
empty (which clears the edges); when `estrutura` is absent, falsy, or has
no `componentes` key, the edges are left unchanged. -/
theorem claim_C7_structure_replace (now : String) (db : DB) (d : ProductDoc)
    (conta : String) :
    (∀ l, d.estrutura = EstruturaField.componentes l →
      (processar_produto_completo now db d conta).dim_estrutura
        = l.foldl (fun tbl comp =>
            edgeInsertIgnore tbl ⟨d.id, comp.produto_id, conta, comp.quantidade⟩)
            (db.dim_estrutura.filter
              (fun r => !(r.id_pai == d.id && r.conta_bling == conta))))
    ∧ ((∀ l, d.estrutura ≠ EstruturaField.componentes l) →
        (processar_produto_completo now db d conta).dim_estrutura
          = db.dim_estrutura) := by
  constructor
  · intro l hl
    simp only [processar_produto_completo, hl]
  · intro hne
    cases he : d.estrutura with
    | componentes l => exact absurd he (hne l)
    | absent => simp [processar_produto_completo, he]
    | falsy => simp [processar_produto_completo, he]
    | semComponentes => simp [processar_produto_completo, he]

/-- Product document with a nonempty component list (with a duplicate child
id, exercising the conflict-ignore insert) and one with no `estrutura`. -/
def exDocC7b : ProductDoc :=
  ⟨50, some "K1", some "Kit", none, none, none, some 10, none,
   EstoqueField.scalar 4,
   EstruturaField.componentes [⟨61, 2⟩, ⟨61, 3⟩, ⟨62, 1⟩]⟩

def exDocC7c : ProductDoc :=
  ⟨50, some "K1", some "Kit", none, none, none, some 10, none,
   EstoqueField.scalar 4, EstruturaField.absent⟩

theorem claim_C7_witness :
    (processar_produto_completo "NOW" exDBC7 exDocC7b "acc").dim_estrutura
      = [⟨50, 61, "acc", 2⟩, ⟨50, 62, "acc", 1⟩]
    ∧ (processar_produto_completo "NOW" exDBC7 exDocC7c "acc").dim_estrutura
      = exDBC7.dim_estrutura := by
  constructor
  · have h := (claim_C7_structure_replace "NOW" exDBC7 exDocC7b "acc").1
      [⟨61, 2⟩, ⟨61, 3⟩, ⟨62, 1⟩] rfl
    rw [h]
    decide
  · exact (claim_C7_structure_replace "NOW" exDBC7 exDocC7c "acc").2
      (fun l h => EstruturaField.noConfusion h)

/-- Tasks and an empty store for the event-log claims. -/
def exTask9a : Task := ⟨9, "acc", "order.updated", some "d1", "body1"⟩

def exTask9b : Task := ⟨9, "acc", "order.updated", some "d2", "body2"⟩

def exDB9 : DB := ⟨fun _ => none, [], fun _ _ => none, [], fun _ _ => none⟩

/-- C9 counterexample: processing the same (entity id, event kind) twice
with different notification bodies leaves the FIRST body in the log row,
not the last one: the conflict action is `DO UPDATE SET event =
EXCLUDED.event`, which never touches `data_json`. -/
theorem claim_C9_counterexample :
    ((evento_upsert "T2" (evento_upsert "T1" exDB9 exTask9a) exTask9b).eventos_bling
        9 "order.updated-9").map (fun r => r.data_json) = some exTask9a
    ∧ exTask9a ≠ exTask9b := by
  refine ⟨?_, by decide⟩
  rfl

/-- C9 (amended): the event-log write is an idempotent insert-or-update
keyed by (entity id, event kind): re-processing the same key leaves exactly
one row, which is byte-for-byte the row of the first processing (only the
`event` column is rewritten on conflict, with the same value), so replay is
safe but the stored notification body is the FIRST one processed, not the
last; no other key is touched. -/
theorem claim_C9_event_log_upsert (now1 now2 : String) (db : DB) (t1 t2 : Task)
    (hid : t2.entity_id = t1.entity_id) (hev : t2.event_type = t1.event_type)
    (hnone : db.eventos_bling t1.entity_id
        (t1.event_type ++ "-" ++ toString t1.entity_id) = none) :
    (evento_upsert now2 (evento_upsert now1 db t1) t2).eventos_bling t1.entity_id
        (t1.event_type ++ "-" ++ toString t1.entity_id)
      = some ⟨t1.event_type ++ "-" ++ toString t1.entity_id, t1.entity_id,
              t1.event_type, t1.conta_bling, t1, now1⟩
    ∧ (∀ i e, ¬(i = t1.entity_id ∧ e = t1.event_type ++ "-" ++ toString t1.entity_id) →
        (evento_upsert now2 (evento_upsert now1 db t1) t2).eventos_bling i e
          = db.eventos_bling i e) := by
  constructor
  · simp only [evento_upsert, hid, hev, hnone]
    simp
  · intro i e hne
    simp only [evento_upsert, hid, hev]
    rw [if_neg hne, if_neg hne]

theorem claim_C9_witness :
    (evento_upsert "T2" (evento_upsert "T1" exDB9 exTask9a) exTask9b).eventos_bling
        9 "order.updated-9"
      = some ⟨"order.updated-9", 9, "order.updated", "acc", exTask9a, "T1"⟩ := by
  have h := (claim_C9_event_log_upsert "T1" "T2" exDB9 exTask9a exTask9b rfl rfl rfl).1
  exact h

/-- Python `str.startswith`, kernel-evaluable. -/
def pyStartsWith (s p : String) : Bool := p.data.isPrefixOf s.data

/-- One HTTP response (or transport failure) seen by the fetch GET of
`get_api_details_v3` (lines 182-221), classified exactly as the `if/elif`
chain classifies status codes; `netErr` is a caught
`requests.exceptions.RequestException`. -/
inductive FetchResp (α : Type)
  | ok (d : α)
  | tooMany
  | serverErr
  | notFound
  | unauthorized
  | other (code : Int)
  | netErr
deriving DecidableEq, Repr

/-- Result of `get_api_details_v3`: a returned document, the empty `{}` on
404, or one of the raised exceptions. -/
inductive ApiResult (α : Type)
  | success (d : α)
  | emptyDoc
  | apiError (code : Int)
  | authError
  | exhausted
deriving DecidableEq, Repr

/-- The retry loop of `get_api_details_v3` (lines 179-224), fuelled.
`responses i` is the i-th HTTP interaction, `renew j` whether the j-th
post-401 token renewal succeeds; `tentativa` starts at 1 with ceiling
`max_tentativas = 20`; `none` means the fuel ran out with the loop still
running. Faithful detail: every branch of the source's `try/except` either
returns, raises, or `continue`s, so the `tentativa += 1` on line 222 is
dead code and no recursive call below increments `tentativa`. -/
def api_loop (α : Type) (responses : Nat → FetchResp α) (renew : Nat → Bool) :
    Nat → Nat → Nat → Nat → Option (ApiResult α)
  | 0, _, _, _ => none
  | fuel+1, tentativa, i, j =>
    if tentativa ≤ 20 then
      match responses i with
      | .ok d => some (.success d)
      | .tooMany => api_loop α responses renew fuel tentativa (i+1) j
      | .serverErr => api_loop α responses renew fuel tentativa (i+1) j
      | .notFound => some .emptyDoc
      | .unauthorized =>
          if renew j then api_loop α responses renew fuel tentativa (i+1) (j+1)
          else some .authError
      | .other code => some (.apiError code)
      | .netErr => api_loop α responses renew fuel tentativa (i+1) j
    else some .exhausted

theorem api_loop_429_runs_forever (fuel i j : Nat) :
    api_loop Unit (fun _ => FetchResp.tooMany) (fun _ => true) fuel 1 i j = none := by
  induction fuel generalizing i j with
  | zero => rfl
  | succ n ih =>
    show api_loop Unit _ _ (n+1) 1 i j = none
    rw [api_loop]
    rw [if_pos (by decide)]
    exact ih (i+1) j

theorem api_loop_never_exhausted (α : Type) (responses : Nat → FetchResp α)
    (renew : Nat → Bool) (fuel t i j : Nat) (ht : t ≤ 20) :
    api_loop α responses renew fuel t i j ≠ some ApiResult.exhausted := by
  induction fuel generalizing i j with
  | zero => simp [api_loop]
  | succ n ih =>
    rw [api_loop, if_pos ht]
    cases responses i with
    | ok d => simp
    | tooMany => exact ih (i+1) j
    | serverErr => exact ih (i+1) j
    | notFound => simp
    | unauthorized =>
        cases hr : renew j with
        | true => rw [if_pos rfl]; exact ih (i+1) (j+1)
        | false => rw [if_neg (by simp)]; simp
    | other code => simp
    | netErr => exact ih (i+1) j

/-- C3: the claim says the fetch retry loop is bounded by the
`max_tentativas = 20` ceiling and that exceeding it raises the
retries-exhausted error. In the code every retry branch (429, 5xx, network
error, 401-with-renewal) ends in `continue`, which skips the
`tentativa += 1` on line 222, so the counter never moves past 1: on an
endless stream of 429s the loop never terminates (first conjunct), and the
`raise Exception("Max tentativas API excedido")` on line 224 is unreachable
from the initial attempt counter 1, whatever the responses (second
conjunct). -/
theorem claim_C3_retry_ceiling_never_enforced :
    (∀ fuel i j, api_loop Unit (fun _ => FetchResp.tooMany) (fun _ => true) fuel 1 i j
        = none)
    ∧ (∀ (α : Type) (responses : Nat → FetchResp α) (renew : Nat → Bool) (fuel i j : Nat),
        api_loop α responses renew fuel 1 i j ≠ some ApiResult.exhausted) :=
  ⟨fun fuel i j => api_loop_429_runs_forever fuel i j,
   fun α responses renew fuel i j =>
     api_loop_never_exhausted α responses renew fuel 1 i j (by decide)⟩

/-- Environment of one worker iteration: the two fetch oracles (an
`Except.error` is an exception raised by `get_api_details_v3`; a 404 order
fetch yields `.ok OrderDoc.empty`, a 404 product fetch `.ok none`),
whether `get_db_connection` hands out a connection, whether the SQL
statements and the commit of the unit of work succeed, the fault injected
into `processar_itens_pedido`, and the wall clock. -/
structure WorkerEnv where
  fetchPedidos : Int → Except Unit OrderDoc
  fetchProdutos : Int → Except Unit (Option ProductDoc)
  connOk : Bool
  sqlOk : Bool
  itensFault : Option Nat
  now : String

/-- Observable resource events of one worker iteration, in order. -/
inductive WEvent
  | apiFetch (endpoint : String) (id : Int)
  | acquireConn
  | releaseConn
deriving DecidableEq, Repr

/-- The API calls issued by the dispatch on lines 416-422. -/
def fetchCallsOf (t : Task) : List WEvent :=
  if pyStartsWith t.event_type "order." then [WEvent.apiFetch "pedidos/vendas" t.entity_id]
  else if pyStartsWith t.event_type "product." then [WEvent.apiFetch "produtos" t.entity_id]
  else if t.event_type == "stock.updated" then [WEvent.apiFetch "produtos" t.entity_id]
  else []

/-- The value of `full_data` after lines 416-422, as an (order doc, product
doc) pair: only the component matching the event kind is ever read by the
persistence dispatch of lines 428-433, the other stays at its initial
empty value. -/
def fetchResultOf (env : WorkerEnv) (t : Task) : Except Unit (OrderDoc × Option ProductDoc) :=
  if pyStartsWith t.event_type "order." then
    match env.fetchPedidos t.entity_id with
    | .error e => .error e
    | .ok d => .ok (d, none)
  else if pyStartsWith t.event_type "product." then
    match env.fetchProdutos t.entity_id with
    | .error e => .error e
    | .ok p => .ok (OrderDoc.empty, p)
  else if t.event_type == "stock.updated" then
    match env.fetchProdutos t.entity_id with
    | .error e => .error e
    | .ok p => .ok (OrderDoc.empty, p)
  else .ok (OrderDoc.empty, none)

/-- One iteration of `worker_processamento` (lines 403-460) on the head of
the queue: returns the store, the remaining queue and the resource-event
trace. A fetch exception is caught by the outermost generic handler
(line 456), which only logs - the task is NOT re-enqueued. A missing
connection (line 452) or a SQL error (line 445, rollback) re-enqueues the
task at the tail. On success the order/product write and the event-log
write commit as one unit of work. -/
def worker_step (env : WorkerEnv) (db : DB) (q : List Task) :
    DB × List Task × List WEvent :=
  match q with
  | [] => (db, [], [])
  | task :: rest =>
    match fetchResultOf env task with
    | .error _ => (db, rest, fetchCallsOf task)
    | .ok (odoc, pdoc) =>
      if env.connOk then
        let db1 :=
          if pyStartsWith task.event_type "order." then
            atualizar_dashboard_fault env.itensFault env.now db task.entity_id
              task.conta_bling task.event_type odoc task.payload_date
          else if pyStartsWith task.event_type "product."
              || task.event_type == "stock.updated" then
            match pdoc with
            | some pd => processar_produto_completo env.now db pd task.conta_bling
            | none => db
          else db
        let db2 := evento_upsert env.now db1 task
        if env.sqlOk then
          (db2, rest, fetchCallsOf task ++ [WEvent.acquireConn, WEvent.releaseConn])
        else
          (db, rest ++ [task], fetchCallsOf task ++ [WEvent.acquireConn, WEvent.releaseConn])
      else
        (db, rest ++ [task], fetchCallsOf task)

/-- Worker environment whose order fetch raises. -/
def envC1 : WorkerEnv :=
  ⟨fun _ => Except.error (), fun _ => Except.error (), true, true, none, "NOW"⟩

def taskC1 : Task := ⟨5, "acc", "order.created", none, "body"⟩

/-- C1 counterexample: a task whose API fetch raises is caught by the
generic handler on line 456, which only logs: the task is removed from the
queue (second component `[]`), nothing is written or committed (the store
is untouched), and the task is not re-enqueued - so a fetch-step failure
DOES drop the task, contradicting the claim. -/
theorem claim_C1_counterexample :
    fetchResultOf envC1 taskC1 = Except.error ()
    ∧ (worker_step envC1 exDB9 [taskC1]).2.1 = []
    ∧ (worker_step envC1 exDB9 [taskC1]).1.pedidos 5 = none
    ∧ (worker_step envC1 exDB9 [taskC1]).1.eventos_bling 5 "order.created-5" = none := by
  exact ⟨rfl, rfl, rfl, rfl⟩

/-- C1 (amended): a task that fails at the PERSISTENCE step is never
dropped - both a missing store connection and a SQL error/rollback
re-enqueue it at the queue tail with the store unchanged - but a task
whose API FETCH raises is caught by the generic exception handler and
removed without any commit. -/
theorem claim_C1_failure_paths (env : WorkerEnv) (db : DB) (t : Task)
    (rest : List Task) :
    ((∃ e, fetchResultOf env t = Except.error e) →
        worker_step env db (t :: rest) = (db, rest, fetchCallsOf t))
    ∧ (∀ od pd, fetchResultOf env t = Except.ok (od, pd) → env.connOk = false →
        worker_step env db (t :: rest) = (db, rest ++ [t], fetchCallsOf t))
    ∧ (∀ od pd, fetchResultOf env t = Except.ok (od, pd) → env.connOk = true →
        env.sqlOk = false →
        worker_step env db (t :: rest)
          = (db, rest ++ [t],
             fetchCallsOf t ++ [WEvent.acquireConn, WEvent.releaseConn])) := by
  refine ⟨?_, ?_, ?_⟩
  · intro hf
    obtain ⟨e, he⟩ := hf
    simp only [worker_step, he]
  · intro od pd hf hconn
    simp only [worker_step, hf, hconn]
    simp
  · intro od pd hf hconn hsql
    simp only [worker_step, hf, hconn, hsql]
    simp

/-- Environments for the C1 witness: fetch succeeds but the connection or
the SQL unit of work fails. -/
def envC1b : WorkerEnv :=
  ⟨fun _ => Except.ok OrderDoc.empty, fun _ => Except.ok none, false, true, none, "NOW"⟩

def envC1c : WorkerEnv :=
  ⟨fun _ => Except.ok OrderDoc.empty, fun _ => Except.ok none, true, false, none, "NOW"⟩

theorem claim_C1_witness :
    worker_step envC1 exDB9 [taskC1] = (exDB9, [], fetchCallsOf taskC1)
    ∧ worker_step envC1b exDB9 [taskC1] = (exDB9, [taskC1], fetchCallsOf taskC1)
    ∧ worker_step envC1c exDB9 [taskC1]
      = (exDB9, [taskC1], fetchCallsOf taskC1 ++ [WEvent.acquireConn, WEvent.releaseConn]) := by
  refine ⟨?_, ?_, ?_⟩
  · exact (claim_C1_failure_paths envC1 exDB9 taskC1 []).1 ⟨(), rfl⟩
  · exact (claim_C1_failure_paths envC1b exDB9 taskC1 []).2.1 OrderDoc.empty none rfl rfl
  · exact (claim_C1_failure_paths envC1c exDB9 taskC1 []).2.2 OrderDoc.empty none rfl rfl rfl

theorem worker_step_order (env : WorkerEnv) (db : DB) (t : Task) (rest : List Task)
    (d : OrderDoc)
    (hord : pyStartsWith t.event_type "order." = true)
    (hfetch : env.fetchPedidos t.entity_id = Except.ok d)
    (hconn : env.connOk = true) (hsql : env.sqlOk = true) :
    worker_step env db (t :: rest)
      = (evento_upsert env.now
          (atualizar_dashboard_fault env.itensFault env.now db t.entity_id
            t.conta_bling t.event_type d t.payload_date) t,
         rest,
         [WEvent.apiFetch "pedidos/vendas" t.entity_id,
          WEvent.acquireConn, WEvent.releaseConn]) := by
  simp only [worker_step, fetchResultOf, fetchCallsOf, hord, hfetch, hconn, hsql]
  simp

theorem worker_step_product (env : WorkerEnv) (db : DB) (t : Task) (rest : List Task)
    (p : Option ProductDoc)
    (hord : pyStartsWith t.event_type "order." = false)
    (hprod : pyStartsWith t.event_type "product." = true
      ∨ (pyStartsWith t.event_type "product." = false ∧ t.event_type = "stock.updated"))
    (hfetch : env.fetchProdutos t.entity_id = Except.ok p)
    (hconn : env.connOk = true) (hsql : env.sqlOk = true) :
    worker_step env db (t :: rest)
      = (evento_upsert env.now
          (match p with
           | some pd => processar_produto_completo env.now db pd t.conta_bling
           | none => db) t,
         rest,
         [WEvent.apiFetch "produtos" t.entity_id,
          WEvent.acquireConn, WEvent.releaseConn]) := by
  cases hprod with
  | inl hp =>
    simp only [worker_step, fetchResultOf, fetchCallsOf, hord, hp, hfetch, hconn, hsql]
    simp
    cases p <;> rfl
  | inr hp =>
    obtain ⟨hp1, hp2⟩ := hp
    have e1 : pyStartsWith "stock.updated" "order." = false := rfl
    have e2 : pyStartsWith "stock.updated" "product." = false := rfl
    have e3 : (("stock.updated" : String) == "stock.updated") = true := rfl
    simp only [worker_step, fetchResultOf, fetchCallsOf, hp2, e1, e2, e3, hfetch,
      hconn, hsql]
    simp
    cases p <;> rfl

/-- The `order.deleted` branch of `atualizar_dashboard` (lines 284-287):
a bare UPDATE touching only the sentinel status, the update time and the
last-event column; a no-op when the row does not exist; the line-item table
is not touched. -/
theorem atualizar_deleted (fault : Option Nat) (now : String) (db : DB) (pid : Int)
    (conta : String) (d : OrderDoc) (event_date : Option String) :
    atualizar_dashboard_fault fault now db pid conta "order.deleted" d event_date
      = { db with pedidos := fun k =>
          if k = pid then
            (match db.pedidos pid with
             | none => none
             | some r =>
                 some { r with
                        situacao_id := 9999999
                        data_atualizacao := pyOrStr event_date now
                        ultimo_evento := "order.deleted" })
          else db.pedidos k } := by
  simp only [atualizar_dashboard_fault]
  rw [if_pos (show (("order.deleted" : String) == "order.deleted") = true from rfl)]

/-- Deleted-order task and an environment whose order fetch succeeds with
the empty document (the upstream answer for a deleted order is a 404). -/
def taskC2 : Task := ⟨5, "acc", "order.deleted", some "2024-02-02", "body"⟩

def envC2 : WorkerEnv :=
  ⟨fun _ => Except.ok OrderDoc.empty, fun _ => Except.error (), true, true, none, "NOW"⟩

/-- C2 counterexample: the claim says `order.deleted` performs NO API
fetch, but `order.deleted` starts with `order.` and therefore goes through
`get_api_details_v3('pedidos/vendas', ...)` on lines 417-418: the worker
trace of a deleted-order task contains an API fetch event. -/
theorem claim_C2_counterexample :
    taskC2.event_type = "order.deleted"
    ∧ (worker_step envC2 exDB5 [taskC2]).2.2
      = [WEvent.apiFetch "pedidos/vendas" 5, WEvent.acquireConn, WEvent.releaseConn] := by
  exact ⟨rfl, rfl⟩

/-- C2 (amended): for an `order.deleted` task the worker DOES perform the
order-endpoint API fetch first; the persistence step then sets the
reserved sentinel status code 9999999, the update time and the last-event
field on the existing order row, leaving the creation time, the payload
column and every other order field unchanged, leaving the line-item rows
untouched, and committing together with the event-log entry. -/
theorem claim_C2_order_deleted (env : WorkerEnv) (db : DB) (t : Task)
    (rest : List Task) (d : OrderDoc) (r : PedidoRow)
    (hev : t.event_type = "order.deleted")
    (hfetch : env.fetchPedidos t.entity_id = Except.ok d)
    (hconn : env.connOk = true) (hsql : env.sqlOk = true)
    (hrow : db.pedidos t.entity_id = some r) :
    (worker_step env db (t :: rest)).2.2
      = [WEvent.apiFetch "pedidos/vendas" t.entity_id,
         WEvent.acquireConn, WEvent.releaseConn]
    ∧ (worker_step env db (t :: rest)).1.pedidos t.entity_id
      = some { r with
               situacao_id := 9999999
               data_atualizacao := pyOrStr t.payload_date env.now
               ultimo_evento := "order.deleted" }
    ∧ (worker_step env db (t :: rest)).1.fat_itens_venda = db.fat_itens_venda
    ∧ (worker_step env db (t :: rest)).2.1 = rest := by
  have hord : pyStartsWith t.event_type "order." = true := by rw [hev]; rfl
  rw [worker_step_order env db t rest d hord hfetch hconn hsql]
  rw [hev, atualizar_deleted]
  refine ⟨rfl, ?_, rfl, rfl⟩
  simp only [evento_upsert]
  simp only [hrow]
  rw [if_pos trivial]

theorem claim_C2_witness :
    (worker_step envC2 exDB5 [taskC2]).2.2
      = [WEvent.apiFetch "pedidos/vendas" 5, WEvent.acquireConn, WEvent.releaseConn]
    ∧ (worker_step envC2 exDB5 [taskC2]).1.pedidos 5
      = some ⟨"acc", 1, some "N1", none, some 100, 9999999, some "2020-01-01",
              "2024-02-02", "order.deleted", OrderDoc.empty⟩
    ∧ (worker_step envC2 exDB5 [taskC2]).1.fat_itens_venda = exDB5.fat_itens_venda
    ∧ (worker_step envC2 exDB5 [taskC2]).2.1 = [] := by
  have h := claim_C2_order_deleted envC2 exDB5 taskC2 [] OrderDoc.empty exRow5
    rfl rfl rfl rfl rfl
  exact ⟨h.1, h.2.1, h.2.2.1, h.2.2.2⟩

/-- Order task and environment where the upstream returned 404 (the fetch
yields the empty document). -/
def taskC8 : Task := ⟨6, "acc", "order.created", none, "body"⟩

def envC8 : WorkerEnv :=
  ⟨fun _ => Except.ok OrderDoc.empty, fun _ => Except.ok none, true, true, none, "NOW"⟩

/-- C8 counterexample: the claim says a 404 skips the corresponding upsert
for orders as well, but `atualizar_dashboard` is called unconditionally on
line 429 - only the PRODUCT branch has the `if full_data:` guard (line
432). An order task whose fetch came back empty still writes an order row
(built from the empty document) where none existed. -/
theorem claim_C8_counterexample :
    envC8.fetchPedidos 6 = Except.ok OrderDoc.empty
    ∧ exDB9.pedidos 6 = none
    ∧ (worker_step envC8 exDB9 [taskC8]).1.pedidos 6
      = some ⟨"acc", 0, none, none, none, 0, none, "NOW", "order.created",
              OrderDoc.empty⟩ := by
  exact ⟨rfl, rfl, rfl⟩

/-- C8 (amended): a 404 makes the API client return the empty document
without raising (first conjunct); for `product.*`/`stock.updated` tasks the
empty document skips the product upsert, so the unit of work degenerates to
just the event-log write, which is still recorded and committed, no product
or order row is touched, and the task completes; the ORDER upsert, however,
is not guarded and runs even on an empty document (shown by the
counterexample). -/
theorem claim_C8_notfound_skips_product_upsert (α : Type)
    (responses : Nat → FetchResp α) (renew : Nat → Bool) (fuel i j : Nat)
    (env : WorkerEnv) (db : DB) (t : Task) (rest : List Task)
    (h404 : responses i = FetchResp.notFound)
    (hord : pyStartsWith t.event_type "order." = false)
    (hprod : pyStartsWith t.event_type "product." = true
      ∨ (pyStartsWith t.event_type "product." = false ∧ t.event_type = "stock.updated"))
    (hfetch : env.fetchProdutos t.entity_id = Except.ok none)
    (hconn : env.connOk = true) (hsql : env.sqlOk = true) :
    api_loop α responses renew (fuel+1) 1 i j = some ApiResult.emptyDoc
    ∧ (worker_step env db (t :: rest)).1 = evento_upsert env.now db t
    ∧ (worker_step env db (t :: rest)).1.produtos = db.produtos
    ∧ (worker_step env db (t :: rest)).1.pedidos = db.pedidos
    ∧ (worker_step env db (t :: rest)).1.eventos_bling t.entity_id
        (t.event_type ++ "-" ++ toString t.entity_id) ≠ none
    ∧ (worker_step env db (t :: rest)).2.1 = rest := by
  have hw := worker_step_product env db t rest none hord hprod hfetch hconn hsql
  refine ⟨?_, ?_, ?_, ?_, ?_, ?_⟩
  · rw [api_loop, if_pos (by decide), h404]
  · rw [hw]
  · rw [hw]
    rfl
  · rw [hw]
    rfl
  · rw [hw]
    simp only [evento_upsert]
    rw [if_pos (by simp)]
    cases db.eventos_bling t.entity_id (t.event_type ++ "-" ++ toString t.entity_id) <;>
      simp
  · rw [hw]

def taskC8p : Task := ⟨7, "acc", "product.updated", none, "body"⟩

theorem claim_C8_witness :
    api_loop Unit (fun _ => FetchResp.notFound) (fun _ => true) 1 1 0 0
      = some ApiResult.emptyDoc
    ∧ (worker_step envC8 exDB9 [taskC8p]).1 = evento_upsert "NOW" exDB9 taskC8p
    ∧ (worker_step envC8 exDB9 [taskC8p]).1.eventos_bling 7 "product.updated-7" ≠ none
    ∧ (worker_step envC8 exDB9 [taskC8p]).2.1 = [] := by
  have h := claim_C8_notfound_skips_product_upsert Unit (fun _ => FetchResp.notFound)
    (fun _ => true) 0 0 0 envC8 exDB9 taskC8p [] rfl rfl (Or.inl rfl) rfl rfl rfl
  exact ⟨h.1, h.2.1, h.2.2.2.2.1, h.2.2.2.2.2⟩

/-- C10: an exception inside `processar_itens_pedido` (after the delete,
during aggregation or insertion) is caught and logged by that function's
own `except` block (lines 277-278) and never reaches the worker, so the
enclosing unit of work still commits the order upsert, the partial
line-item state and the event-log entry, the task is reported successful
and is NOT re-enqueued: the order can end up committed with its line items
deleted but only the first `n` aggregated rows (possibly none)
reinserted. -/
theorem claim_C10_itens_exception_swallowed (env : WorkerEnv) (db : DB) (t : Task)
    (rest : List Task) (d : OrderDoc) (n : Nat)
    (hord : pyStartsWith t.event_type "order." = true)
    (hnd : (t.event_type == "order.deleted") = false)
    (hfetch : env.fetchPedidos t.entity_id = Except.ok d)
    (hconn : env.connOk = true) (hsql : env.sqlOk = true)
    (hfault : env.itensFault = some n)
    (hni : d.itens.isEmpty = false) :
    (worker_step env db (t :: rest)).2.1 = rest
    ∧ (worker_step env db (t :: rest)).1.fat_itens_venda
      = (db.fat_itens_venda.filter (fun row => !(row.pedido_data_id == t.entity_id)))
        ++ ((agruparItens d.itens).map
            (mkItemRow t.entity_id (pyOrStr d.data env.now))).take n
    ∧ (worker_step env db (t :: rest)).1.pedidos t.entity_id ≠ none
    ∧ (worker_step env db (t :: rest)).1.eventos_bling t.entity_id
        (t.event_type ++ "-" ++ toString t.entity_id) ≠ none := by
  have hw := worker_step_order env db t rest d hord hfetch hconn hsql
  rw [hw]
  refine ⟨rfl, ?_, ?_, ?_⟩
  · simp only [evento_upsert, atualizar_dashboard_fault]
    rw [if_neg (by simp [hnd])]
    simp only [processar_itens_pedido_fault, hfault]
    rw [if_neg (by simp [hni])]
  · simp only [evento_upsert, atualizar_dashboard_fault]
    rw [if_neg (by simp [hnd])]
    simp
  · simp only [evento_upsert]
    rw [if_pos (by simp)]
    cases (atualizar_dashboard_fault env.itensFault env.now db t.entity_id
        t.conta_bling t.event_type d t.payload_date).eventos_bling t.entity_id
        (t.event_type ++ "-" ++ toString t.entity_id) <;> simp

/-- Concrete inputs showing the dramatic n = 0 case: the old line items are
deleted, the fault stops every reinsert, and the task still commits. -/
def exDocC10 : OrderDoc :=
  ⟨some (some 1), none, some "N", none, some 20, some "2024-03-03",
   [⟨some "A", some "d", some 2, some 7⟩]⟩

def envC10 : WorkerEnv :=
  ⟨fun _ => Except.ok exDocC10, fun _ => Except.error (), true, true, some 0, "NOW"⟩

def taskC10 : Task := ⟨8, "acc", "order.updated", none, "body"⟩

def exDB10 : DB :=
  ⟨fun _ => none, [⟨8, "X", "old", 1, 1, "2023-01-01"⟩], fun _ _ => none, [],
   fun _ _ => none⟩

theorem claim_C10_witness :
    (worker_step envC10 exDB10 [taskC10]).2.1 = []
    ∧ (worker_step envC10 exDB10 [taskC10]).1.fat_itens_venda = []
    ∧ (worker_step envC10 exDB10 [taskC10]).1.pedidos 8 ≠ none
    ∧ (worker_step envC10 exDB10 [taskC10]).1.eventos_bling 8 "order.updated-8"
      ≠ none := by
  have h := claim_C10_itens_exception_swallowed envC10 exDB10 taskC10 [] exDocC10 0
    rfl rfl rfl rfl rfl rfl rfl
  refine ⟨h.1, ?_, h.2.2.1, h.2.2.2⟩
  rw [h.2.1]
  rfl

/-- Per-account entry of `TOKEN_CACHE`. -/
structure CacheEntry where
  token : String
  expires_at : Int
deriving DecidableEq, Repr

/-- One row of `bling_contas`. -/
structure ContaRow where
  client_id : String
  client_secret : String
  access_token : Option String
  refresh_token : Option String
  expires_at : Option Int
deriving DecidableEq, Repr

/-- Resource and network events of `get_bling_token_for_account`. -/
inductive TEvent
  | acquireConn
  | releaseConn
  | httpPost
  | sleepSecs (n : Nat)
deriving DecidableEq, Repr

/-- Upstream answer to the refresh POST of line 119, classified as by the
status dispatch of lines 121-152. -/
inductive TokenResp
  | ok (access_token refresh_token : String) (expires_in : Int)
  | tooMany
  | badAuth
  | otherStatus
deriving DecidableEq, Repr

/-- Python truthiness of an optional string column. -/
def pyTruthyStr (v : Option String) : Bool :=
  match v with
  | none => false
  | some s => !(s == "")

/-- The renewal loop of lines 116-155 (`max_retries_token = 3`): one POST
per iteration; 429 sleeps 60 seconds and retries, 200 persists the new
tokens and returns, 400/401 clears the cache entry and fails permanently,
any other status fails; falling out of the loop returns None. Returns
(token result, cache after, credential row after, events of the loop). -/
def token_refresh_tries (responses : Nat → TokenResp) (current_ts : Int)
    (cache : Option CacheEntry) (row : ContaRow) :
    Nat → Nat → Option String × Option CacheEntry × ContaRow × List TEvent
  | 0, _ => (none, cache, row, [])
  | k+1, attempt =>
    match responses attempt with
    | .tooMany =>
        let r := token_refresh_tries responses current_ts cache row k (attempt+1)
        (r.1, r.2.1, r.2.2.1, [TEvent.httpPost, TEvent.sleepSecs 60] ++ r.2.2.2)
    | .ok a rt e =>
        (some a, some ⟨a, current_ts + e⟩,
         { row with access_token := some a, refresh_token := some rt,
                    expires_at := some (current_ts + e) },
         [TEvent.httpPost])
    | .badAuth => (none, none, row, [TEvent.httpPost])
    | .otherStatus => (none, cache, row, [TEvent.httpPost])

/-- Lines 80-161 of `get_bling_token_for_account`: the cache missed, so a
store connection is acquired (line 81), the credential row is read, and -
if the stored token is not still valid - the renewal loop runs; the
connection is only closed in the `finally` of line 161, AFTER the loop. -/
def get_bling_token_from_db (current_ts : Int) (cache : Option CacheEntry)
    (row : Option ContaRow) (responses : Nat → TokenResp) :
    Option String × Option CacheEntry × Option ContaRow × List TEvent :=
  match row with
  | none => (none, cache, none, [TEvent.acquireConn, TEvent.releaseConn])
  | some rd =>
      if pyTruthyStr rd.access_token
          && decide (rd.expires_at.getD 0 > current_ts + 60) then
        (rd.access_token,
         some ⟨rd.access_token.getD "", rd.expires_at.getD 0⟩, some rd,
         [TEvent.acquireConn, TEvent.releaseConn])
      else
        let r := token_refresh_tries responses current_ts cache rd 3 0
        (r.1, r.2.1, some r.2.2.1,
         TEvent.acquireConn :: (r.2.2.2 ++ [TEvent.releaseConn]))

/-- Body of `get_bling_token_for_account` (lines 67-161) for one account:
(clock, cached entry, stored row, upstream responses) to (token result,
cache after, row after, event trace). A cache hit with more than 60s of
validity returns without any I/O. -/
def get_bling_token_for_account (current_ts : Int) (cache : Option CacheEntry)
    (row : Option ContaRow) (responses : Nat → TokenResp) :
    Option String × Option CacheEntry × Option ContaRow × List TEvent :=
  match cache with
  | some c =>
      if c.expires_at > current_ts + 60 then (some c.token, some c, row, [])
      else get_bling_token_from_db current_ts (some c) row responses
  | none => get_bling_token_from_db current_ts none row responses

/-- An external call (refresh POST or backoff sleep) strictly between the
connection acquisition and its release in a token-manager trace. -/
def connHeldDuringExternal (tr : List TEvent) : Bool :=
  ((tr.dropWhile (fun e => !(e == TEvent.acquireConn))).takeWhile
      (fun e => !(e == TEvent.releaseConn))).any
    (fun e => match e with
      | TEvent.httpPost => true
      | TEvent.sleepSecs _ => true
      | _ => false)

/-- No API fetch occurs at or after the store-connection acquisition of a
worker iteration's trace. -/
def noFetchAfterAcquire (tr : List WEvent) : Bool :=
  (tr.dropWhile (fun e => !(e == WEvent.acquireConn))).all
    (fun e => match e with
      | WEvent.apiFetch _ _ => false
      | _ => true)

def exConta4 : ContaRow := ⟨"cid", "sec", some "OLD", some "RT", some 500⟩

def exResp4 : Nat → TokenResp :=
  fun n => if n = 0 then TokenResp.tooMany else TokenResp.ok "NEW" "RT2" 3600

/-- C4 counterexample: on a cache miss with an expired stored token and a
429-then-200 refresh, the token manager acquires its store connection,
then POSTs, sleeps 60 seconds and POSTs again before releasing it: a
store connection IS held open across an external token-refresh call and
across a backoff sleep, at this concrete input, contradicting the claim. -/
theorem claim_C4_counterexample :
    (get_bling_token_for_account 1000 none (some exConta4) exResp4).2.2.2
      = [TEvent.acquireConn, TEvent.httpPost, TEvent.sleepSecs 60,
         TEvent.httpPost, TEvent.releaseConn]
    ∧ connHeldDuringExternal
        (get_bling_token_for_account 1000 none (some exConta4) exResp4).2.2.2 = true
    ∧ (get_bling_token_for_account 1000 none (some exConta4) exResp4).1
      = some "NEW" := by
  exact ⟨rfl, rfl, rfl⟩

theorem fetchCallsOf_shape (t : Task) :
    fetchCallsOf t = [] ∨ ∃ ep, fetchCallsOf t = [WEvent.apiFetch ep t.entity_id] := by
  unfold fetchCallsOf
  by_cases h1 : pyStartsWith t.event_type "order." = true
  · rw [if_pos h1]
    exact Or.inr ⟨"pedidos/vendas", rfl⟩
  · rw [if_neg h1]
    by_cases h2 : pyStartsWith t.event_type "product." = true
    · rw [if_pos h2]
      exact Or.inr ⟨"produtos", rfl⟩
    · rw [if_neg h2]
      by_cases h3 : (t.event_type == "stock.updated") = true
      · rw [if_pos h3]
        exact Or.inr ⟨"produtos", rfl⟩
      · rw [if_neg h3]
        exact Or.inl rfl

/-- C4 (amended): inside the worker loop the invariant holds - every
entity-fetch API call strictly precedes the acquisition of the store
connection for the persistence unit of work, for every environment, store
and queue (first conjunct) - but the token manager violates it: the
connection acquired to read the credential row stays held across the
token-refresh POST, shown here on a run whose refresh succeeds
immediately (second conjunct). -/
theorem claim_C4_connection_scope :
    (∀ (env : WorkerEnv) (db : DB) (q : List Task),
        noFetchAfterAcquire (worker_step env db q).2.2 = true)
    ∧ connHeldDuringExternal
        (get_bling_token_for_account 1000 none (some exConta4)
          (fun _ => TokenResp.ok "NEW" "RT2" 3600)).2.2.2 = true := by
  constructor
  · intro env db q
    cases q with
    | nil => rfl
    | cons t rest =>
      simp only [worker_step]
      cases hfr : fetchResultOf env t with
      | error e =>
          rcases fetchCallsOf_shape t with h | ⟨ep, h⟩ <;> rw [h] <;> rfl
      | ok pr =>
          obtain ⟨od, pd⟩ := pr
          rcases fetchCallsOf_shape t with h | ⟨ep, h⟩ <;>
            cases hc : env.connOk <;> cases hs : env.sqlOk <;> simp only [h] <;> rfl
  · rfl

end WebhookBling
